import Mathlib

/-!
# DataFormats/PatCandidates: `pat::PATObject<T>` and `pat::Jet`

A shallow embedding of `interface/PATObject.h` and `interface/Jet.h`.

* A C++ call either returns, throws, or has undefined behaviour: `Result`.
* A C++ pointer is `Ptr T`, with `none` for the null pointer.
* `float`/`double` values are IEEE 754 data: `Flt`.
* Classes of other packages (`edm::RefToBase`, `reco::Jet`, `CaloTower`, ...) are
  records of what the two headers observe of them.
-/

namespace pat

/-! ## Outcomes of a call -/

/-- Exceptions named by the headers and by the specification. -/
inductive Exception where
  /-- The `cms::Exception("Type Mismatch")` of `Jet::caloSpecific` and `Jet::pfSpecific`. -/
  | typeMismatch
  /-- The `edm::Exception(edm::errors::ProductNotFound)`, named `ReferenceUnavailable` in the
  specification. -/
  | productNotFound
  /-- The error `NoCorrectionsAvailable` of the specification. -/
  | noCorrectionsAvailable
  /-- The error `IndexOutOfRange` of the specification. -/
  | indexOutOfRange
  deriving DecidableEq, Repr

/-- Outcome of a C++ call: a returned value, a thrown exception, or undefined behaviour. -/
inductive Result (α : Type) where
  | ok (a : α)
  | throws (e : Exception)
  | undefined
  deriving DecidableEq, Repr

/-- Whether the call returned a value. -/
def Result.isOk {α : Type} : Result α → Bool
  | .ok _ => true
  | _ => false

/-- Sequencing of calls: the first failure is the outcome. -/
def Result.bind {α β : Type} (r : Result α) (f : α → Result β) : Result β :=
  match r with
  | .ok a => f a
  | .throws e => .throws e
  | .undefined => .undefined

/-- A C++ pointer: `none` is the null pointer, `some x` points to `x`. -/
abbrev Ptr (T : Type) := Option T

/-- Dereferencing a pointer, as `*p`: undefined on the null pointer. -/
def Ptr.deref {T : Type} : Ptr T → Result T
  | some x => .ok x
  | none => .undefined

/-! ## Floating point data -/

/-- An IEEE 754 datum: not-a-number, a signed infinity, or the finite number
`(-1)^neg * m * 2^e` (a signed zero when `m = 0`). -/
inductive Flt where
  | nan
  | inf (neg : Bool)
  | finite (neg : Bool) (m : Nat) (e : Int)
  deriving DecidableEq, Repr

namespace Flt

/-- The literal `0`. -/
def zero : Flt := .finite false 0 0

/-- Whether the datum compares equal to zero (`+0` or `-0`). -/
def isZero : Flt → Bool
  | .finite _ m _ => m == 0
  | _ => false

/-- Whether the datum is a finite number (neither NaN nor an infinity). -/
def isFinite : Flt → Bool
  | .finite _ _ _ => true
  | _ => false

/-- The rational value of a finite datum (and `0` for the others). -/
def toRat : Flt → ℚ
  | .finite neg m e => (if neg then -1 else 1) * (m : ℚ) * (2 : ℚ) ^ e
  | _ => 0

/-- The C++ operator `/` on floating point operands (IEEE 754 division). `round` is the
rounding of an exact quotient to the result format; it is only reached for a finite
dividend and a finite non-zero divisor. -/
def div (round : ℚ → Flt) : Flt → Flt → Flt
  | .nan, _ => .nan
  | _, .nan => .nan
  | .inf _, .inf _ => .nan
  | .inf s, .finite t _ _ => .inf (xor s t)
  | .finite s _ _, .inf t => .finite (xor s t) 0 0
  | .finite s m e, .finite t n f =>
    if n = 0 then
      if m = 0 then .nan else .inf (xor s t)
    else
      round (toRat (.finite s m e) / toRat (.finite t n f))

end Flt

/-! ## `edm::RefToBase<T>` -/

/-- The `edm::RefToBase<T>` handle as `PATObject` sees it: the null reference (what the
default constructor gives), or a reference to entry `key` of the collection `id`, together
with what the event resolves it to: `some x` while the collection is present, `none` once
it is not in the event any more. -/
inductive RefToBase (T : Type) where
  | null
  | toProduct (id : Nat) (key : Nat) (product : Option T)
  deriving DecidableEq, Repr

namespace RefToBase

/-- The method `RefToBase::isNull()`. -/
def isNull {T : Type} : RefToBase T → Bool
  | .null => true
  | .toProduct _ _ _ => false

/-- Whether the referenced collection can still be located (the `isAvailable()` that the
disabled branch of `PATObject::originalObject` asks for). -/
def isAvailable {T : Type} : RefToBase T → Bool
  | .null => false
  | .toProduct _ _ p => p.isSome

/-- The method `RefToBase::get()`. The class is not part of this package: `dropped` is what
it does on a reference whose collection is gone. -/
def get {T : Type} (dropped : Result (Ptr T)) : RefToBase T → Result (Ptr T)
  | .null => .ok none
  | .toProduct _ _ (some x) => .ok (some x)
  | .toProduct _ _ none => dropped

/-- The operator `*ref`: the object that `get()` points to. -/
def deref {T : Type} (dropped : Result (Ptr T)) (r : RefToBase T) : Result T :=
  (r.get dropped).bind Ptr.deref

end RefToBase

/-! ## `pat::PATObject<ObjectType>` -/

/-- The class `PATObject<ObjectType>`: the `ObjectType` base sub-object and the data
members, in declaration order. -/
structure PATObject (T : Type) where
  /-- The base class sub-object (`PATObject` derives from `ObjectType`). -/
  obj : T
  refToOrig_ : RefToBase T
  resET_ : Flt
  resEta_ : Flt
  resPhi_ : Flt
  resA_ : Flt
  resB_ : Flt
  resC_ : Flt
  resD_ : Flt
  resTheta_ : Flt
  covM_ : List Flt

namespace PATObject

variable {T : Type}

/-- The default constructor `PATObject()`: default base object, default (null) reference,
all resolutions `0`, default (empty) covariance vector. -/
def mk0 [Inhabited T] : PATObject T :=
  { obj := default, refToOrig_ := .null,
    resET_ := Flt.zero, resEta_ := Flt.zero, resPhi_ := Flt.zero, resA_ := Flt.zero,
    resB_ := Flt.zero, resC_ := Flt.zero, resD_ := Flt.zero, resTheta_ := Flt.zero,
    covM_ := [] }

/-- The constructor `PATObject(const ObjectType & obj)`. -/
def ofObject (o : T) : PATObject T :=
  { obj := o, refToOrig_ := .null,
    resET_ := Flt.zero, resEta_ := Flt.zero, resPhi_ := Flt.zero, resA_ := Flt.zero,
    resB_ := Flt.zero, resC_ := Flt.zero, resD_ := Flt.zero, resTheta_ := Flt.zero,
    covM_ := [] }

/-- The constructor `PATObject(const edm::RefToBase<ObjectType> & ref)`: the base object
is initialised from `*ref`, so the construction fails when that does. -/
def ofRef (dropped : Result (Ptr T)) (ref : RefToBase T) : Result (PATObject T) :=
  (ref.deref dropped).bind fun o => .ok
    { obj := o, refToOrig_ := ref,
      resET_ := Flt.zero, resEta_ := Flt.zero, resPhi_ := Flt.zero, resA_ := Flt.zero,
      resB_ := Flt.zero, resC_ := Flt.zero, resD_ := Flt.zero, resTheta_ := Flt.zero,
      covM_ := [] }

/-- The method `originalObject()`. The branch on `isAvailable()` that throws
`ProductNotFound` is commented out in the source, so it is not here either. -/
def originalObject (dropped : Result (Ptr T)) (p : PATObject T) : Result (Ptr T) :=
  if p.refToOrig_.isNull then
    .ok none
  else
    p.refToOrig_.get dropped

/-- The method `originalObjectRef()`. -/
def originalObjectRef (p : PATObject T) : RefToBase T := p.refToOrig_

def resolutionET (p : PATObject T) : Flt := p.resET_
def resolutionEta (p : PATObject T) : Flt := p.resEta_
def resolutionPhi (p : PATObject T) : Flt := p.resPhi_
def resolutionA (p : PATObject T) : Flt := p.resA_
def resolutionB (p : PATObject T) : Flt := p.resB_
def resolutionC (p : PATObject T) : Flt := p.resC_
def resolutionD (p : PATObject T) : Flt := p.resD_
def resolutionTheta (p : PATObject T) : Flt := p.resTheta_
def covMatrix (p : PATObject T) : List Flt := p.covM_

def setResolutionET (p : PATObject T) (et : Flt) : PATObject T := { p with resET_ := et }
def setResolutionEta (p : PATObject T) (eta : Flt) : PATObject T := { p with resEta_ := eta }
def setResolutionPhi (p : PATObject T) (phi : Flt) : PATObject T := { p with resPhi_ := phi }
def setResolutionA (p : PATObject T) (a : Flt) : PATObject T := { p with resA_ := a }
def setResolutionB (p : PATObject T) (b : Flt) : PATObject T := { p with resB_ := b }
def setResolutionC (p : PATObject T) (c : Flt) : PATObject T := { p with resC_ := c }
def setResolutionD (p : PATObject T) (d : Flt) : PATObject T := { p with resD_ := d }
def setResolutionTheta (p : PATObject T) (theta : Flt) : PATObject T :=
  { p with resTheta_ := theta }
def setCovMatrix (p : PATObject T) (c : List Flt) : PATObject T := { p with covM_ := c }

/-- One call of a resolution or covariance setter, with its argument. -/
inductive SetterCall where
  | resolutionET (v : Flt)
  | resolutionEta (v : Flt)
  | resolutionPhi (v : Flt)
  | resolutionA (v : Flt)
  | resolutionB (v : Flt)
  | resolutionC (v : Flt)
  | resolutionD (v : Flt)
  | resolutionTheta (v : Flt)
  | covMatrix (c : List Flt)
  deriving DecidableEq, Repr

/-- Performing one setter call. -/
def call (p : PATObject T) : SetterCall → PATObject T
  | .resolutionET v => p.setResolutionET v
  | .resolutionEta v => p.setResolutionEta v
  | .resolutionPhi v => p.setResolutionPhi v
  | .resolutionA v => p.setResolutionA v
  | .resolutionB v => p.setResolutionB v
  | .resolutionC v => p.setResolutionC v
  | .resolutionD v => p.setResolutionD v
  | .resolutionTheta v => p.setResolutionTheta v
  | .covMatrix c => p.setCovMatrix c

/-- Performing a sequence of setter calls, first call first. -/
def calls (p : PATObject T) (cs : List SetterCall) : PATObject T :=
  cs.foldl call p

end PATObject

/-! ## Classes of other packages used by `pat::Jet` -/

/-- The class `CaloTower`, of the calorimeter package: a tower is known by its detector
identifier. -/
structure CaloTower where
  id : Nat
  deriving DecidableEq, Repr

/-- The class `reco::Candidate`: a calorimeter tower, or a candidate of another kind. -/
inductive Candidate where
  | caloTower (t : CaloTower)
  | other (key : Nat)
  deriving DecidableEq, Repr

/-- The class `reco::Jet` as `pat::Jet` sees it: `energy()`, `numberOfDaughters()` and
`daughter(i)`. They belong to the jet reconstruction package and are taken as given. -/
structure RecoJet where
  energy : Flt
  numberOfDaughters : Nat
  daughter : Nat → Result (Ptr Candidate)

instance : Inhabited RecoJet :=
  ⟨{ energy := Flt.zero, numberOfDaughters := 0, daughter := fun _ => .ok none }⟩

/-- The record `reco::CaloJet::Specific`, with the members that `Jet.h` reads. -/
structure CaloSpecific where
  mMaxEInEmTowers : Flt
  mMaxEInHadTowers : Flt
  mEnergyFractionHadronic : Flt
  mEnergyFractionEm : Flt
  mHadEnergyInHB : Flt
  mHadEnergyInHO : Flt
  mHadEnergyInHE : Flt
  mHadEnergyInHF : Flt
  mEmEnergyInEB : Flt
  mEmEnergyInEE : Flt
  mEmEnergyInHF : Flt
  mTowersArea : Flt
  deriving DecidableEq, Repr

/-- The record `reco::PFJet::Specific`, with the members that `Jet.h` reads. -/
structure PFSpecific where
  mChargedHadronEnergy : Flt
  mNeutralHadronEnergy : Flt
  mChargedEmEnergy : Flt
  mChargedMuEnergy : Flt
  mNeutralEmEnergy : Flt
  mChargedMultiplicity : Flt
  mNeutralMultiplicity : Flt
  mMuonMultiplicity : Flt
  deriving DecidableEq, Repr

/-- Modelled from the spec: the class `pat::JetCorrFactors` (its header is not among the
sources). A correction set holds a label, a declared flavour, and a mapping from named
correction steps to multiplicative factors. -/
structure JetCorrFactors where
  label : String
  flavour : String
  factors : List (String × Flt)
  deriving DecidableEq, Repr

/-- The method `JetCorrFactors::getLabel()`. -/
def JetCorrFactors.getLabel (c : JetCorrFactors) : String := c.label

/-! ## `pat::Jet` -/

/-- The class `pat::Jet`: a `PATObject<reco::Jet>` and the data members of `Jet.h`, in
declaration order. Members of types from other packages are kept as keys. -/
structure Jet extends PATObject RecoJet where
  embeddedCaloTowers_ : Bool
  caloTowers_ : List CaloTower
  genJet_ : List Nat
  partonFlavour_ : Int
  jetEnergyCorrectionStep_ : Nat
  jetEnergyCorrections_ : List JetCorrFactors
  activeJetCorrIndex_ : Nat
  pairDiscriVector_ : List (String × Flt)
  tagInfoLabels_ : List String
  tagInfos_ : List Nat
  jetCharge_ : Flt
  associatedTracks_ : List Nat
  specificCalo_ : List CaloSpecific
  specificPF_ : List PFSpecific

namespace Jet

/-- Modelled from the spec: the invariant of the jet record, "at most one of
`caloSpecific`/`pfSpecific` is populated". Nothing in `Jet.h` enforces it: the two vectors
are independent members, filled by the private `tryImportSpecific`, whose body is not among
the sources. -/
def provenanceInvariant (j : Jet) : Prop :=
  j.specificCalo_ = [] ∨ j.specificPF_ = []

instance (j : Jet) : Decidable j.provenanceInvariant := by
  unfold provenanceInvariant; exact inferInstance

/-- The inherited `reco::Jet::energy()`. -/
def energy (j : Jet) : Flt := j.obj.energy

/-- The method `hasCorrFactors()`. -/
def hasCorrFactors (j : Jet) : Bool := !j.jetEnergyCorrections_.isEmpty

/-- Modelled from the spec: the private `corrFactors_()`, declared in `Jet.h` (it throws if
the factors are not available) with its body not among the sources. The current set is
`correctionSets[0]`; the call fails with `NoCorrectionsAvailable` if the list is empty. -/
def corrFactors_ (j : Jet) : Result (Ptr JetCorrFactors) :=
  match j.jetEnergyCorrections_ with
  | [] => .throws .noCorrectionsAvailable
  | c :: _ => .ok (some c)

/-- The method `corrFactorSetLabel()`: `corrFactors_()->getLabel()`. -/
def corrFactorSetLabel (j : Jet) : Result String :=
  j.corrFactors_.bind fun p => p.deref.bind fun c => .ok c.getLabel

/-- The method `isCaloJet()`. -/
def isCaloJet (j : Jet) : Bool := !j.specificCalo_.isEmpty

/-- The method `isPFJet()`. -/
def isPFJet (j : Jet) : Bool := !j.specificPF_.isEmpty

/-- The method `isBasicJet()`. -/
def isBasicJet (j : Jet) : Bool := !(j.isCaloJet || j.isPFJet)

/-- The method `caloSpecific()`. -/
def caloSpecific (j : Jet) : Result CaloSpecific :=
  match j.specificCalo_ with
  | [] => .throws .typeMismatch
  | s :: _ => .ok s

/-- The method `pfSpecific()`. -/
def pfSpecific (j : Jet) : Result PFSpecific :=
  match j.specificPF_ with
  | [] => .throws .typeMismatch
  | s :: _ => .ok s

def chargedHadronEnergy (j : Jet) : Result Flt :=
  j.pfSpecific.bind fun s => .ok s.mChargedHadronEnergy
def neutralHadronEnergy (j : Jet) : Result Flt :=
  j.pfSpecific.bind fun s => .ok s.mNeutralHadronEnergy
def chargedEmEnergy (j : Jet) : Result Flt :=
  j.pfSpecific.bind fun s => .ok s.mChargedEmEnergy
def chargedMuEnergy (j : Jet) : Result Flt :=
  j.pfSpecific.bind fun s => .ok s.mChargedMuEnergy
def neutralEmEnergy (j : Jet) : Result Flt :=
  j.pfSpecific.bind fun s => .ok s.mNeutralEmEnergy

/-- The method `chargedHadronEnergyFraction()`: `chargedHadronEnergy () / energy ()`. The
quotient of the `float` by the `double` is formed in `double` and returned as `float`;
`round` stands for the two roundings of a finite quotient, and a NaN or an infinity is
returned as it is. -/
def chargedHadronEnergyFraction (round : ℚ → Flt) (j : Jet) : Result Flt :=
  j.chargedHadronEnergy.bind fun q => .ok (Flt.div round q j.energy)
/-- The method `neutralHadronEnergyFraction()`. -/
def neutralHadronEnergyFraction (round : ℚ → Flt) (j : Jet) : Result Flt :=
  j.neutralHadronEnergy.bind fun q => .ok (Flt.div round q j.energy)
/-- The method `chargedEmEnergyFraction()`. -/
def chargedEmEnergyFraction (round : ℚ → Flt) (j : Jet) : Result Flt :=
  j.chargedEmEnergy.bind fun q => .ok (Flt.div round q j.energy)
/-- The method `chargedMuEnergyFraction()`. -/
def chargedMuEnergyFraction (round : ℚ → Flt) (j : Jet) : Result Flt :=
  j.chargedMuEnergy.bind fun q => .ok (Flt.div round q j.energy)
/-- The method `neutralEmEnergyFraction()`. -/
def neutralEmEnergyFraction (round : ℚ → Flt) (j : Jet) : Result Flt :=
  j.neutralEmEnergy.bind fun q => .ok (Flt.div round q j.energy)

/-- The method `daughter(i)`. In the embedded mode it is `&caloTowers_[i]`, an unchecked
subscript: outside the collection the behaviour is undefined. -/
def daughter (j : Jet) (i : Nat) : Result (Ptr Candidate) :=
  if j.embeddedCaloTowers_ then
    match j.caloTowers_[i]? with
    | some t => .ok (some (.caloTower t))
    | none => .undefined
  else
    j.obj.daughter i

/-- The method `numberOfDaughters()`. -/
def numberOfDaughters (j : Jet) : Nat :=
  if j.embeddedCaloTowers_ then j.caloTowers_.length else j.obj.numberOfDaughters

end Jet

/-! ## Sample data -/

/-- A `reco::Jet` of energy `e` with two constituents, whose `daughter` gives the null
pointer past the end. -/
def sampleRecoJet (e : Flt) : RecoJet :=
  { energy := e, numberOfDaughters := 2,
    daughter := fun i => if i < 2 then .ok (some (.other (10 + i))) else .ok none }

/-- A particle-flow record with charged hadron energy `q`. -/
def samplePF (q : Flt) : PFSpecific :=
  { mChargedHadronEnergy := q, mNeutralHadronEnergy := Flt.zero, mChargedEmEnergy := Flt.zero,
    mChargedMuEnergy := Flt.zero, mNeutralEmEnergy := Flt.zero,
    mChargedMultiplicity := Flt.zero, mNeutralMultiplicity := Flt.zero,
    mMuonMultiplicity := Flt.zero }

/-- A calorimeter record with all entries `0`. -/
def sampleCalo : CaloSpecific :=
  { mMaxEInEmTowers := Flt.zero, mMaxEInHadTowers := Flt.zero,
    mEnergyFractionHadronic := Flt.zero, mEnergyFractionEm := Flt.zero,
    mHadEnergyInHB := Flt.zero, mHadEnergyInHO := Flt.zero, mHadEnergyInHE := Flt.zero,
    mHadEnergyInHF := Flt.zero, mEmEnergyInEB := Flt.zero, mEmEnergyInEE := Flt.zero,
    mEmEnergyInHF := Flt.zero, mTowersArea := Flt.zero }

/-- A jet made from `PATObject(obj)` with the given constituent embedding, correction
sets, active index and specific records; the other members are empty. -/
def sampleJet (o : RecoJet) (embedded : Bool) (towers : List CaloTower)
    (corrs : List JetCorrFactors) (active : Nat)
    (calo : List CaloSpecific) (pf : List PFSpecific) : Jet :=
  { toPATObject := PATObject.ofObject o,
    embeddedCaloTowers_ := embedded, caloTowers_ := towers,
    genJet_ := [], partonFlavour_ := 0, jetEnergyCorrectionStep_ := 0,
    jetEnergyCorrections_ := corrs, activeJetCorrIndex_ := active,
    pairDiscriVector_ := [], tagInfoLabels_ := [], tagInfos_ := [],
    jetCharge_ := Flt.zero, associatedTracks_ := [],
    specificCalo_ := calo, specificPF_ := pf }

/-! ## Auxiliary facts -/

theorem Flt.div_isFinite_of_isZero (round : ℚ → Flt) (a b : Flt) (hb : b.isZero = true) :
    (Flt.div round a b).isFinite = false := by
  cases b with
  | nan => simp [Flt.isZero] at hb
  | inf t => simp [Flt.isZero] at hb
  | finite t n f =>
    have hn : n = 0 := by simpa [Flt.isZero] using hb
    subst hn
    cases a with
    | nan => rfl
    | inf s => rfl
    | finite s m e =>
      by_cases hm : m = 0
      · simp [Flt.div, hm, Flt.isFinite]
      · simp [Flt.div, hm, Flt.isFinite]

theorem PATObject.call_refToOrig {T : Type} (p : PATObject T) (c : PATObject.SetterCall) :
    (p.call c).refToOrig_ = p.refToOrig_ := by
  cases c <;> rfl

theorem PATObject.calls_refToOrig {T : Type} (p : PATObject T)
    (cs : List PATObject.SetterCall) : (p.calls cs).refToOrig_ = p.refToOrig_ := by
  induction cs generalizing p with
  | nil => rfl
  | cons c cs ih =>
    show ((p.call c).calls cs).refToOrig_ = p.refToOrig_
    rw [ih, PATObject.call_refToOrig]

theorem Jet.pfSpecific_cons (j : Jet) (s : PFSpecific) (rest : List PFSpecific)
    (h : j.specificPF_ = s :: rest) : j.pfSpecific = .ok s := by
  simp [Jet.pfSpecific, h]

theorem Jet.pfSpecific_nil (j : Jet) (h : j.specificPF_ = []) :
    j.pfSpecific = .throws .typeMismatch := by
  simp [Jet.pfSpecific, h]

theorem Jet.caloSpecific_cons (j : Jet) (s : CaloSpecific) (rest : List CaloSpecific)
    (h : j.specificCalo_ = s :: rest) : j.caloSpecific = .ok s := by
  simp [Jet.caloSpecific, h]

theorem Jet.caloSpecific_nil (j : Jet) (h : j.specificCalo_ = []) :
    j.caloSpecific = .throws .typeMismatch := by
  simp [Jet.caloSpecific, h]

/-! ## `PATObject::originalObject` -/

/-- On a back-reference that is set but whose collection is gone, `originalObject()` adds
nothing of its own: its outcome is the outcome of `RefToBase::get()` there, whatever that
is. -/
theorem PATObject.originalObject_of_dropped {T : Type} (d : Result (Ptr T))
    (p : PATObject T) (id key : Nat) (h : p.refToOrig_ = .toProduct id key none) :
    p.originalObject d = d := by
  simp [PATObject.originalObject, h, RefToBase.isNull, RefToBase.get]

/-- C2. An object built by the default constructor or from a base object has no
back-reference; after any sequence of resolution and covariance setter calls,
`originalObject()` returns the null pointer, whatever the reference service would do. -/
theorem originalObject_null_without_backref (T : Type) [Inhabited T] (d : Result (Ptr T))
    (o : T) (cs : List PATObject.SetterCall) :
    ((PATObject.mk0 : PATObject T).calls cs).originalObject d = .ok none
    ∧ ((PATObject.ofObject o).calls cs).originalObject d = .ok none := by
  constructor
  · simp [PATObject.originalObject, PATObject.calls_refToOrig, PATObject.mk0,
      RefToBase.isNull]
  · simp [PATObject.originalObject, PATObject.calls_refToOrig, PATObject.ofObject,
      RefToBase.isNull]

/-- C6. `caloSpecific()` fails with the type mismatch error exactly when `specificCalo_` is
empty and otherwise returns its first element; `pfSpecific()` does the same on
`specificPF_`. So `caloSpecific()` returns exactly when `isCaloJet()` and `pfSpecific()`
exactly when `isPFJet()`. Both are functions of the jet alone and give back only the
record. -/
theorem specific_accessors (j : Jet) :
    (j.caloSpecific = .throws .typeMismatch ↔ j.specificCalo_ = [])
    ∧ (∀ s rest, j.specificCalo_ = s :: rest → j.caloSpecific = .ok s)
    ∧ (j.pfSpecific = .throws .typeMismatch ↔ j.specificPF_ = [])
    ∧ (∀ s rest, j.specificPF_ = s :: rest → j.pfSpecific = .ok s)
    ∧ j.caloSpecific.isOk = j.isCaloJet
    ∧ j.pfSpecific.isOk = j.isPFJet := by
  refine ⟨?_, Jet.caloSpecific_cons j, ?_, Jet.pfSpecific_cons j, ?_, ?_⟩
  · cases hc : j.specificCalo_ with
    | nil => simp [Jet.caloSpecific, hc]
    | cons s rest => simp [Jet.caloSpecific, hc]
  · cases hp : j.specificPF_ with
    | nil => simp [Jet.pfSpecific, hp]
    | cons s rest => simp [Jet.pfSpecific, hp]
  · cases hc : j.specificCalo_ with
    | nil => simp [Jet.caloSpecific, Jet.isCaloJet, Result.isOk, hc]
    | cons s rest => simp [Jet.caloSpecific, Jet.isCaloJet, Result.isOk, hc]
  · cases hp : j.specificPF_ with
    | nil => simp [Jet.pfSpecific, Jet.isPFJet, Result.isOk, hp]
    | cons s rest => simp [Jet.pfSpecific, Jet.isPFJet, Result.isOk, hp]

/-- Witness of C6: on a calorimeter jet `caloSpecific()` returns the stored record and
`pfSpecific()` fails. -/
theorem specific_accessors_witness :
    (sampleJet (sampleRecoJet Flt.zero) false [] [] 0 [sampleCalo] []).caloSpecific
        = .ok sampleCalo
    ∧ (sampleJet (sampleRecoJet Flt.zero) false [] [] 0 [sampleCalo] []).pfSpecific
        = .throws .typeMismatch :=
  ⟨(specific_accessors
      (sampleJet (sampleRecoJet Flt.zero) false [] [] 0 [sampleCalo] [])).2.1
      sampleCalo [] rfl,
   (specific_accessors
      (sampleJet (sampleRecoJet Flt.zero) false [] [] 0 [sampleCalo] [])).2.2.1.mpr rfl⟩

/-! ## `pat::Jet`: constituents -/

/-- C7. With `embeddedCaloTowers_` true, `numberOfDaughters()` is the size of
`caloTowers_` and `daughter(i)`, for `i` in range, points to the `i`-th embedded tower.
With it false, both are the values of the underlying `reco::Jet`, whatever `caloTowers_`
holds. -/
theorem daughters_follow_embedding (j : Jet) :
    (j.embeddedCaloTowers_ = true →
      j.numberOfDaughters = j.caloTowers_.length
      ∧ ∀ (i : Nat) (h : i < j.caloTowers_.length),
          j.daughter i = .ok (some (.caloTower (j.caloTowers_.get ⟨i, h⟩))))
    ∧ (j.embeddedCaloTowers_ = false →
      j.numberOfDaughters = j.obj.numberOfDaughters
      ∧ (∀ i : Nat, j.daughter i = j.obj.daughter i)
      ∧ ∀ towers : List CaloTower,
          ({ j with caloTowers_ := towers } : Jet).numberOfDaughters = j.numberOfDaughters
          ∧ ∀ i : Nat, ({ j with caloTowers_ := towers } : Jet).daughter i = j.daughter i) := by
  constructor
  · intro he
    refine ⟨by simp [Jet.numberOfDaughters, he], ?_⟩
    intro i h
    have hget : j.caloTowers_[i]? = some (j.caloTowers_.get ⟨i, h⟩) := by
      simp [List.getElem?_eq_getElem h]
    simp only [Jet.daughter, he, if_true, hget]
  · intro he
    refine ⟨by simp [Jet.numberOfDaughters, he], ?_, ?_⟩
    · intro i
      simp [Jet.daughter, he]
    · intro towers
      refine ⟨by simp [Jet.numberOfDaughters, he], ?_⟩
      intro i
      simp [Jet.daughter, he]

/-- Witness of C7: an embedded jet with towers 5 and 6 over a `reco::Jet` with two other
constituents, and the same jet without embedding. -/
theorem daughters_follow_embedding_witness :
    ((sampleJet (sampleRecoJet Flt.zero) true [⟨5⟩, ⟨6⟩] [] 0 [] []).numberOfDaughters = 2
      ∧ (sampleJet (sampleRecoJet Flt.zero) true [⟨5⟩, ⟨6⟩] [] 0 [] []).daughter 1
          = .ok (some (.caloTower ⟨6⟩)))
    ∧ ((sampleJet (sampleRecoJet Flt.zero) false [⟨5⟩] [] 0 [] []).numberOfDaughters = 2
      ∧ (sampleJet (sampleRecoJet Flt.zero) false [⟨5⟩] [] 0 [] []).daughter 1
          = .ok (some (.other 11))) :=
  ⟨⟨((daughters_follow_embedding
        (sampleJet (sampleRecoJet Flt.zero) true [⟨5⟩, ⟨6⟩] [] 0 [] [])).1 rfl).1,
    ((daughters_follow_embedding
        (sampleJet (sampleRecoJet Flt.zero) true [⟨5⟩, ⟨6⟩] [] 0 [] [])).1 rfl).2 1
      (by decide)⟩,
   ⟨((daughters_follow_embedding
        (sampleJet (sampleRecoJet Flt.zero) false [⟨5⟩] [] 0 [] [])).2 rfl).1,
    ((daughters_follow_embedding
        (sampleJet (sampleRecoJet Flt.zero) false [⟨5⟩] [] 0 [] [])).2 rfl).2.1 1⟩⟩

/-- C8, as stated, fails: on an embedded jet with no towers, index 0 is out of range and
`daughter(0)` is an access outside the collection, not an index-out-of-range error; on a
delegating jet over a `reco::Jet` that gives the null pointer past the end, `daughter(2)`
returns that null pointer. -/
theorem daughter_out_of_range_no_error :
    (sampleJet (sampleRecoJet Flt.zero) true [] [] 0 [] []).numberOfDaughters ≤ 0
    ∧ (sampleJet (sampleRecoJet Flt.zero) true [] [] 0 [] []).daughter 0 = .undefined
    ∧ (sampleJet (sampleRecoJet Flt.zero) true [] [] 0 [] []).daughter 0
        ≠ .throws .indexOutOfRange
    ∧ (sampleJet (sampleRecoJet Flt.zero) false [] [] 0 [] []).numberOfDaughters ≤ 2
    ∧ (sampleJet (sampleRecoJet Flt.zero) false [] [] 0 [] []).daughter 2 = .ok none
    ∧ (sampleJet (sampleRecoJet Flt.zero) false [] [] 0 [] []).daughter 2
        ≠ .throws .indexOutOfRange := by
  refine ⟨by decide, rfl, by decide, by decide, rfl, by decide⟩

/-- C8, amended. For an index `i` at or past `numberOfDaughters()`, `daughter(i)` makes no
bounds check: in the embedded mode it is the unchecked subscript outside `caloTowers_`
(undefined behaviour), in the delegating mode it is the outcome of `reco::Jet::daughter(i)`.
-/
theorem daughter_out_of_range_unchecked (j : Jet) (i : Nat) (hi : j.numberOfDaughters ≤ i) :
    (j.embeddedCaloTowers_ = true → j.daughter i = .undefined)
    ∧ (j.embeddedCaloTowers_ = false → j.daughter i = j.obj.daughter i) := by
  constructor
  · intro he
    have hlen : j.caloTowers_.length ≤ i := by
      simpa [Jet.numberOfDaughters, he] using hi
    have hget : j.caloTowers_[i]? = none := List.getElem?_eq_none hlen
    simp only [Jet.daughter, he, if_true, hget]
  · intro he
    simp [Jet.daughter, he]

/-- Witness of the amended C8: index 3 on an embedded jet with two towers. -/
theorem daughter_out_of_range_unchecked_witness :
    (sampleJet (sampleRecoJet Flt.zero) true [⟨5⟩, ⟨6⟩] [] 0 [] []).daughter 3 = .undefined :=
  (daughter_out_of_range_unchecked
    (sampleJet (sampleRecoJet Flt.zero) true [⟨5⟩, ⟨6⟩] [] 0 [] []) 3 (by decide)).1 rfl

/-! ## `pat::Jet`: energy fractions -/

/-- C9, as stated, fails: a jet of zero total energy with no particle-flow record makes
every energy-fraction accessor fail with the type mismatch error of `pfSpecific()`. -/
theorem energyFraction_throws_without_pf :
    (sampleJet (sampleRecoJet Flt.zero) false [] [] 0 [] []).energy.isZero = true
    ∧ (sampleJet (sampleRecoJet Flt.zero) false [] [] 0 [] []).chargedHadronEnergyFraction
        (fun _ => Flt.nan) = .throws .typeMismatch
    ∧ (sampleJet (sampleRecoJet Flt.zero) false [] [] 0 [] []).neutralHadronEnergyFraction
        (fun _ => Flt.nan) = .throws .typeMismatch
    ∧ (sampleJet (sampleRecoJet Flt.zero) false [] [] 0 [] []).chargedEmEnergyFraction
        (fun _ => Flt.nan) = .throws .typeMismatch
    ∧ (sampleJet (sampleRecoJet Flt.zero) false [] [] 0 [] []).chargedMuEnergyFraction
        (fun _ => Flt.nan) = .throws .typeMismatch
    ∧ (sampleJet (sampleRecoJet Flt.zero) false [] [] 0 [] []).neutralEmEnergyFraction
        (fun _ => Flt.nan) = .throws .typeMismatch := by
  refine ⟨rfl, rfl, rfl, rfl, rfl, rfl⟩

/-- C9, amended. For a jet whose particle-flow record is populated and whose total energy
is zero, each energy-fraction accessor returns the stored energy divided by `energy()`,
with no guard, and that quotient is not finite (NaN or an infinity); it does not throw. -/
theorem energyFraction_nonfinite_on_pfJet (round : ℚ → Flt) (j : Jet) (s : PFSpecific)
    (rest : List PFSpecific) (hpf : j.specificPF_ = s :: rest)
    (hzero : j.energy.isZero = true) :
    (j.chargedHadronEnergyFraction round = .ok (Flt.div round s.mChargedHadronEnergy j.energy)
      ∧ (Flt.div round s.mChargedHadronEnergy j.energy).isFinite = false)
    ∧ (j.neutralHadronEnergyFraction round
          = .ok (Flt.div round s.mNeutralHadronEnergy j.energy)
      ∧ (Flt.div round s.mNeutralHadronEnergy j.energy).isFinite = false)
    ∧ (j.chargedEmEnergyFraction round = .ok (Flt.div round s.mChargedEmEnergy j.energy)
      ∧ (Flt.div round s.mChargedEmEnergy j.energy).isFinite = false)
    ∧ (j.chargedMuEnergyFraction round = .ok (Flt.div round s.mChargedMuEnergy j.energy)
      ∧ (Flt.div round s.mChargedMuEnergy j.energy).isFinite = false)
    ∧ (j.neutralEmEnergyFraction round = .ok (Flt.div round s.mNeutralEmEnergy j.energy)
      ∧ (Flt.div round s.mNeutralEmEnergy j.energy).isFinite = false) := by
  have hs : j.pfSpecific = .ok s := Jet.pfSpecific_cons j s rest hpf
  refine ⟨⟨?_, Flt.div_isFinite_of_isZero round _ _ hzero⟩,
    ⟨?_, Flt.div_isFinite_of_isZero round _ _ hzero⟩,
    ⟨?_, Flt.div_isFinite_of_isZero round _ _ hzero⟩,
    ⟨?_, Flt.div_isFinite_of_isZero round _ _ hzero⟩,
    ⟨?_, Flt.div_isFinite_of_isZero round _ _ hzero⟩⟩
  · simp only [Jet.chargedHadronEnergyFraction, Jet.chargedHadronEnergy, hs, Result.bind]
  · simp only [Jet.neutralHadronEnergyFraction, Jet.neutralHadronEnergy, hs, Result.bind]
  · simp only [Jet.chargedEmEnergyFraction, Jet.chargedEmEnergy, hs, Result.bind]
  · simp only [Jet.chargedMuEnergyFraction, Jet.chargedMuEnergy, hs, Result.bind]
  · simp only [Jet.neutralEmEnergyFraction, Jet.neutralEmEnergy, hs, Result.bind]

/-- Witness of the amended C9: a particle-flow jet of zero energy with charged hadron
energy 3 has charged hadron fraction `+inf` and neutral hadron fraction NaN (`0 / 0`). -/
theorem energyFraction_nonfinite_on_pfJet_witness :
    (sampleJet (sampleRecoJet Flt.zero) false [] [] 0 []
        [samplePF (.finite false 3 0)]).chargedHadronEnergyFraction (fun _ => Flt.zero)
      = .ok (.inf false)
    ∧ (sampleJet (sampleRecoJet Flt.zero) false [] [] 0 []
        [samplePF (.finite false 3 0)]).neutralHadronEnergyFraction (fun _ => Flt.zero)
      = .ok .nan :=
  ⟨(energyFraction_nonfinite_on_pfJet (fun _ => Flt.zero)
      (sampleJet (sampleRecoJet Flt.zero) false [] [] 0 [] [samplePF (.finite false 3 0)])
      (samplePF (.finite false 3 0)) [] rfl rfl).1.1,
   (energyFraction_nonfinite_on_pfJet (fun _ => Flt.zero)
      (sampleJet (sampleRecoJet Flt.zero) false [] [] 0 [] [samplePF (.finite false 3 0)])
      (samplePF (.finite false 3 0)) [] rfl rfl).2.1.1⟩

/-! ## `pat::Jet`: correction factor sets -/

/-- C10. `corrFactorSetLabel()` returns the label of the first element of
`jetEnergyCorrections_` whenever the list is non-empty, fails with the
no-corrections-available error when it is empty, and does not change with
`activeJetCorrIndex_`. -/
theorem corrFactorSetLabel_first (j : Jet) :
    (∀ c rest, j.jetEnergyCorrections_ = c :: rest → j.corrFactorSetLabel = .ok c.label)
    ∧ (j.jetEnergyCorrections_ = [] → j.corrFactorSetLabel = .throws .noCorrectionsAvailable)
    ∧ ∀ k : Nat, ({ j with activeJetCorrIndex_ := k } : Jet).corrFactorSetLabel
        = j.corrFactorSetLabel := by
  refine ⟨?_, ?_, fun k => rfl⟩
  · intro c rest h
    simp [Jet.corrFactorSetLabel, Jet.corrFactors_, h, Result.bind, Ptr.deref,
      JetCorrFactors.getLabel]
  · intro h
    simp [Jet.corrFactorSetLabel, Jet.corrFactors_, h, Result.bind]

/-- Witness of C10: two correction sets with the active index on the second one, and a
jet with none. -/
theorem corrFactorSetLabel_first_witness :
    (sampleJet (sampleRecoJet Flt.zero) false []
        [⟨"L2L3", "", []⟩, ⟨"L5", "b", []⟩] 1 [] []).corrFactorSetLabel = .ok "L2L3"
    ∧ (sampleJet (sampleRecoJet Flt.zero) false [] [] 0 [] []).corrFactorSetLabel
        = .throws .noCorrectionsAvailable :=
  ⟨(corrFactorSetLabel_first (sampleJet (sampleRecoJet Flt.zero) false []
        [⟨"L2L3", "", []⟩, ⟨"L5", "b", []⟩] 1 [] [])).1 ⟨"L2L3", "", []⟩ [⟨"L5", "b", []⟩] rfl,
   (corrFactorSetLabel_first (sampleJet (sampleRecoJet Flt.zero) false [] [] 0 [] [])).2.1
      rfl⟩

/-! ## `pat::Jet`: presence of correction factors -/

/-- C11. `hasCorrFactors()` is true if and only if `jetEnergyCorrections_` is non-empty,
and it does not change with the active correction step or the active index. -/
theorem hasCorrFactors_iff_nonempty (j : Jet) :
    (j.hasCorrFactors = true ↔ j.jetEnergyCorrections_ ≠ [])
    ∧ ∀ (step k : Nat),
        ({ j with jetEnergyCorrectionStep_ := step,
                  activeJetCorrIndex_ := k } : Jet).hasCorrFactors = j.hasCorrFactors := by
  refine ⟨?_, fun step k => rfl⟩
  cases hc : j.jetEnergyCorrections_ with
  | nil => simp [Jet.hasCorrFactors, hc]
  | cons c rest => simp [Jet.hasCorrFactors, hc]

/-! ## `PATObject`: resolutions and covariance -/

/-- C12. After each of the three constructors (default, from a base object, from a
reference, whenever that construction returns an object) the eight resolutions are `0`
and the covariance matrix is empty. -/
theorem constructors_zero_resolutions (T : Type) [Inhabited T] (o : T)
    (d : Result (Ptr T)) (r : RefToBase T) (p : PATObject T)
    (hp : PATObject.ofRef d r = .ok p) :
    ((PATObject.mk0 : PATObject T).resolutionET = Flt.zero
      ∧ (PATObject.mk0 : PATObject T).resolutionEta = Flt.zero
      ∧ (PATObject.mk0 : PATObject T).resolutionPhi = Flt.zero
      ∧ (PATObject.mk0 : PATObject T).resolutionA = Flt.zero
      ∧ (PATObject.mk0 : PATObject T).resolutionB = Flt.zero
      ∧ (PATObject.mk0 : PATObject T).resolutionC = Flt.zero
      ∧ (PATObject.mk0 : PATObject T).resolutionD = Flt.zero
      ∧ (PATObject.mk0 : PATObject T).resolutionTheta = Flt.zero
      ∧ (PATObject.mk0 : PATObject T).covMatrix = [])
    ∧ ((PATObject.ofObject o).resolutionET = Flt.zero
      ∧ (PATObject.ofObject o).resolutionEta = Flt.zero
      ∧ (PATObject.ofObject o).resolutionPhi = Flt.zero
      ∧ (PATObject.ofObject o).resolutionA = Flt.zero
      ∧ (PATObject.ofObject o).resolutionB = Flt.zero
      ∧ (PATObject.ofObject o).resolutionC = Flt.zero
      ∧ (PATObject.ofObject o).resolutionD = Flt.zero
      ∧ (PATObject.ofObject o).resolutionTheta = Flt.zero
      ∧ (PATObject.ofObject o).covMatrix = [])
    ∧ (p.resolutionET = Flt.zero
      ∧ p.resolutionEta = Flt.zero
      ∧ p.resolutionPhi = Flt.zero
      ∧ p.resolutionA = Flt.zero
      ∧ p.resolutionB = Flt.zero
      ∧ p.resolutionC = Flt.zero
      ∧ p.resolutionD = Flt.zero
      ∧ p.resolutionTheta = Flt.zero
      ∧ p.covMatrix = []) := by
  refine ⟨⟨rfl, rfl, rfl, rfl, rfl, rfl, rfl, rfl, rfl⟩,
    ⟨rfl, rfl, rfl, rfl, rfl, rfl, rfl, rfl, rfl⟩, ?_⟩
  unfold PATObject.ofRef at hp
  cases hx : r.deref d with
  | ok x =>
    rw [hx] at hp
    simp only [Result.bind, Result.ok.injEq] at hp
    subst hp
    exact ⟨rfl, rfl, rfl, rfl, rfl, rfl, rfl, rfl, rfl⟩
  | throws e =>
    rw [hx] at hp
    simp [Result.bind] at hp
  | undefined =>
    rw [hx] at hp
    simp [Result.bind] at hp

/-- Witness of C12: the constructor from the reference to entry 4 of collection 7, which
resolves to a jet of two constituents. -/
theorem constructors_zero_resolutions_witness :
    PATObject.ofRef (.throws .productNotFound)
        (.toProduct 7 4 (some (sampleRecoJet Flt.zero)))
      = .ok ({ PATObject.ofObject (sampleRecoJet Flt.zero) with
                refToOrig_ := .toProduct 7 4 (some (sampleRecoJet Flt.zero)) })
    ∧ ({ PATObject.ofObject (sampleRecoJet Flt.zero) with
          refToOrig_ := .toProduct 7 4 (some (sampleRecoJet Flt.zero)) }
        : PATObject RecoJet).resolutionET = Flt.zero
    ∧ ({ PATObject.ofObject (sampleRecoJet Flt.zero) with
          refToOrig_ := .toProduct 7 4 (some (sampleRecoJet Flt.zero)) }
        : PATObject RecoJet).covMatrix = [] :=
  ⟨rfl,
   (constructors_zero_resolutions RecoJet (sampleRecoJet Flt.zero)
      (.throws .productNotFound) (.toProduct 7 4 (some (sampleRecoJet Flt.zero)))
      { PATObject.ofObject (sampleRecoJet Flt.zero) with
          refToOrig_ := .toProduct 7 4 (some (sampleRecoJet Flt.zero)) } rfl).2.2.1,
   (constructors_zero_resolutions RecoJet (sampleRecoJet Flt.zero)
      (.throws .productNotFound) (.toProduct 7 4 (some (sampleRecoJet Flt.zero)))
      { PATObject.ofObject (sampleRecoJet Flt.zero) with
          refToOrig_ := .toProduct 7 4 (some (sampleRecoJet Flt.zero)) }
      rfl).2.2.2.2.2.2.2.2.2.2⟩

/-- C13. Each of the nine setters, followed by its own getter, returns the value that was
set, as it is; the other eight resolution and covariance readings, the back-reference and
the wrapped value are as before the call. -/
theorem setters_set_only_their_field (T : Type) (p : PATObject T) (v : Flt) (c : List Flt) :
    ((p.setResolutionET v).resolutionET = v
      ∧ (p.setResolutionET v).resolutionEta = p.resolutionEta
      ∧ (p.setResolutionET v).resolutionPhi = p.resolutionPhi
      ∧ (p.setResolutionET v).resolutionA = p.resolutionA
      ∧ (p.setResolutionET v).resolutionB = p.resolutionB
      ∧ (p.setResolutionET v).resolutionC = p.resolutionC
      ∧ (p.setResolutionET v).resolutionD = p.resolutionD
      ∧ (p.setResolutionET v).resolutionTheta = p.resolutionTheta
      ∧ (p.setResolutionET v).covMatrix = p.covMatrix
      ∧ (p.setResolutionET v).originalObjectRef = p.originalObjectRef
      ∧ (p.setResolutionET v).obj = p.obj)
    ∧ ((p.setResolutionEta v).resolutionET = p.resolutionET
      ∧ (p.setResolutionEta v).resolutionEta = v
      ∧ (p.setResolutionEta v).resolutionPhi = p.resolutionPhi
      ∧ (p.setResolutionEta v).resolutionA = p.resolutionA
      ∧ (p.setResolutionEta v).resolutionB = p.resolutionB
      ∧ (p.setResolutionEta v).resolutionC = p.resolutionC
      ∧ (p.setResolutionEta v).resolutionD = p.resolutionD
      ∧ (p.setResolutionEta v).resolutionTheta = p.resolutionTheta
      ∧ (p.setResolutionEta v).covMatrix = p.covMatrix
      ∧ (p.setResolutionEta v).originalObjectRef = p.originalObjectRef
      ∧ (p.setResolutionEta v).obj = p.obj)
    ∧ ((p.setResolutionPhi v).resolutionET = p.resolutionET
      ∧ (p.setResolutionPhi v).resolutionEta = p.resolutionEta
      ∧ (p.setResolutionPhi v).resolutionPhi = v
      ∧ (p.setResolutionPhi v).resolutionA = p.resolutionA
      ∧ (p.setResolutionPhi v).resolutionB = p.resolutionB
      ∧ (p.setResolutionPhi v).resolutionC = p.resolutionC
      ∧ (p.setResolutionPhi v).resolutionD = p.resolutionD
      ∧ (p.setResolutionPhi v).resolutionTheta = p.resolutionTheta
      ∧ (p.setResolutionPhi v).covMatrix = p.covMatrix
      ∧ (p.setResolutionPhi v).originalObjectRef = p.originalObjectRef
      ∧ (p.setResolutionPhi v).obj = p.obj)
    ∧ ((p.setResolutionA v).resolutionET = p.resolutionET
      ∧ (p.setResolutionA v).resolutionEta = p.resolutionEta
      ∧ (p.setResolutionA v).resolutionPhi = p.resolutionPhi
      ∧ (p.setResolutionA v).resolutionA = v
      ∧ (p.setResolutionA v).resolutionB = p.resolutionB
      ∧ (p.setResolutionA v).resolutionC = p.resolutionC
      ∧ (p.setResolutionA v).resolutionD = p.resolutionD
      ∧ (p.setResolutionA v).resolutionTheta = p.resolutionTheta
      ∧ (p.setResolutionA v).covMatrix = p.covMatrix
      ∧ (p.setResolutionA v).originalObjectRef = p.originalObjectRef
      ∧ (p.setResolutionA v).obj = p.obj)
    ∧ ((p.setResolutionB v).resolutionET = p.resolutionET
      ∧ (p.setResolutionB v).resolutionEta = p.resolutionEta
      ∧ (p.setResolutionB v).resolutionPhi = p.resolutionPhi
      ∧ (p.setResolutionB v).resolutionA = p.resolutionA
      ∧ (p.setResolutionB v).resolutionB = v
      ∧ (p.setResolutionB v).resolutionC = p.resolutionC
      ∧ (p.setResolutionB v).resolutionD = p.resolutionD
      ∧ (p.setResolutionB v).resolutionTheta = p.resolutionTheta
      ∧ (p.setResolutionB v).covMatrix = p.covMatrix
      ∧ (p.setResolutionB v).originalObjectRef = p.originalObjectRef
      ∧ (p.setResolutionB v).obj = p.obj)
    ∧ ((p.setResolutionC v).resolutionET = p.resolutionET
      ∧ (p.setResolutionC v).resolutionEta = p.resolutionEta
      ∧ (p.setResolutionC v).resolutionPhi = p.resolutionPhi
      ∧ (p.setResolutionC v).resolutionA = p.resolutionA
      ∧ (p.setResolutionC v).resolutionB = p.resolutionB
      ∧ (p.setResolutionC v).resolutionC = v
      ∧ (p.setResolutionC v).resolutionD = p.resolutionD
      ∧ (p.setResolutionC v).resolutionTheta = p.resolutionTheta
      ∧ (p.setResolutionC v).covMatrix = p.covMatrix
      ∧ (p.setResolutionC v).originalObjectRef = p.originalObjectRef
      ∧ (p.setResolutionC v).obj = p.obj)
    ∧ ((p.setResolutionD v).resolutionET = p.resolutionET
      ∧ (p.setResolutionD v).resolutionEta = p.resolutionEta
      ∧ (p.setResolutionD v).resolutionPhi = p.resolutionPhi
      ∧ (p.setResolutionD v).resolutionA = p.resolutionA
      ∧ (p.setResolutionD v).resolutionB = p.resolutionB
      ∧ (p.setResolutionD v).resolutionC = p.resolutionC
      ∧ (p.setResolutionD v).resolutionD = v
      ∧ (p.setResolutionD v).resolutionTheta = p.resolutionTheta
      ∧ (p.setResolutionD v).covMatrix = p.covMatrix
      ∧ (p.setResolutionD v).originalObjectRef = p.originalObjectRef
      ∧ (p.setResolutionD v).obj = p.obj)
    ∧ ((p.setResolutionTheta v).resolutionET = p.resolutionET
      ∧ (p.setResolutionTheta v).resolutionEta = p.resolutionEta
      ∧ (p.setResolutionTheta v).resolutionPhi = p.resolutionPhi
      ∧ (p.setResolutionTheta v).resolutionA = p.resolutionA
      ∧ (p.setResolutionTheta v).resolutionB = p.resolutionB
      ∧ (p.setResolutionTheta v).resolutionC = p.resolutionC
      ∧ (p.setResolutionTheta v).resolutionD = p.resolutionD
      ∧ (p.setResolutionTheta v).resolutionTheta = v
      ∧ (p.setResolutionTheta v).covMatrix = p.covMatrix
      ∧ (p.setResolutionTheta v).originalObjectRef = p.originalObjectRef
      ∧ (p.setResolutionTheta v).obj = p.obj)
    ∧ ((p.setCovMatrix c).resolutionET = p.resolutionET
      ∧ (p.setCovMatrix c).resolutionEta = p.resolutionEta
      ∧ (p.setCovMatrix c).resolutionPhi = p.resolutionPhi
      ∧ (p.setCovMatrix c).resolutionA = p.resolutionA
      ∧ (p.setCovMatrix c).resolutionB = p.resolutionB
      ∧ (p.setCovMatrix c).resolutionC = p.resolutionC
      ∧ (p.setCovMatrix c).resolutionD = p.resolutionD
      ∧ (p.setCovMatrix c).resolutionTheta = p.resolutionTheta
      ∧ (p.setCovMatrix c).covMatrix = c
      ∧ (p.setCovMatrix c).originalObjectRef = p.originalObjectRef
      ∧ (p.setCovMatrix c).obj = p.obj) :=
  ⟨⟨rfl, rfl, rfl, rfl, rfl, rfl, rfl, rfl, rfl, rfl, rfl⟩,
   ⟨rfl, rfl, rfl, rfl, rfl, rfl, rfl, rfl, rfl, rfl, rfl⟩,
   ⟨rfl, rfl, rfl, rfl, rfl, rfl, rfl, rfl, rfl, rfl, rfl⟩,
   ⟨rfl, rfl, rfl, rfl, rfl, rfl, rfl, rfl, rfl, rfl, rfl⟩,
   ⟨rfl, rfl, rfl, rfl, rfl, rfl, rfl, rfl, rfl, rfl, rfl⟩,
   ⟨rfl, rfl, rfl, rfl, rfl, rfl, rfl, rfl, rfl, rfl, rfl⟩,
   ⟨rfl, rfl, rfl, rfl, rfl, rfl, rfl, rfl, rfl, rfl, rfl⟩,
   ⟨rfl, rfl, rfl, rfl, rfl, rfl, rfl, rfl, rfl, rfl, rfl⟩,
   ⟨rfl, rfl, rfl, rfl, rfl, rfl, rfl, rfl, rfl, rfl, rfl⟩⟩

end pat
